import Mathlib

/-!
A shallow embedding of the hotwakes repository's SST-window extraction
pipeline (`single_TC/extract_sst.py`, `single_TC/extract_HYCOM_sst.py`)
and its downstream consumers (`find_mixed_missing_sst.py`,
`plot_single_track_sst.py`), together with theorems settling the
specification claims.

Modelling conventions:
* lines of a text file are `String`s without their trailing newline
  (the scripts `rstrip("\n")` each kept line and re-append `"\n"` on
  write, so line contents are the faithful unit);
* Python `float` values are modelled as `ℚ`; the remote Earth-Engine
  query is an opaque function producing a `QueryOutcome`; the missing
  marker `float("nan")` is `Option.none`;
* dates are rata-die day numbers (`Int`); `datetime.strptime(s,
  "%Y%m%d")` + `timedelta(days=off)` + `strftime` is modelled as
  validating the 8-digit token and adding `off` to its day number,
  which is the exact quotient of the string-level round trip.
-/

/-- Characters counted as whitespace by Python's `str.strip()`
(restricted to the ASCII whitespace that occurs in the data). -/
def pySpace (c : Char) : Bool := c.isWhitespace

/-- Python `str.strip()` on a character list. -/
def pyStrip (cs : List Char) : List Char :=
  ((cs.dropWhile pySpace).reverse.dropWhile pySpace).reverse

/-- Split a character list at every `','`, exactly like Python's
`str.split(",")` (an empty input gives one empty field). -/
def splitComma : List Char → List (List Char)
  | [] => [[]]
  | c :: rest =>
    if c = ',' then [] :: splitComma rest
    else
      match splitComma rest with
      | [] => [[c]]
      | h :: t => (c :: h) :: t

/-- The comma-separated, whitespace-trimmed fields of a line:
`[p.strip() for p in line.split(",")]`. -/
def pyFields (line : String) : List String :=
  (splitComma line.data).map (fun cs => String.mk (pyStrip cs))

/-- Numeric value of a run of decimal digit characters. -/
def digitsToNat (cs : List Char) : ℕ :=
  cs.foldl (fun a c => 10 * a + (c.toNat - 48)) 0

/-- Model of Python `float()` on unsigned decimal literals: digits with
at most one decimal point and at least one digit (`"13"`, `"13.4"`,
`"13."`, `".4"`).  The exotic inputs `float` also accepts (exponents,
`inf`/`nan`, underscores, surrounding whitespace) do not occur in
best-track coordinate tokens and are not modelled. -/
def pyFloatUnsigned (cs : List Char) : Option ℚ :=
  if (cs.all fun c => c.isDigit || c = '.') && cs.any Char.isDigit then
    match cs.splitOn '.' with
    | [ip] => some (digitsToNat ip : ℚ)
    | [ip, fp] => some ((digitsToNat ip : ℚ) + (digitsToNat fp : ℚ) / (10 ^ fp.length))
    | _ => none
  else none

/-- Model of Python `float()` on optionally signed decimal literals. -/
def pyFloat (cs : List Char) : Option ℚ :=
  match cs with
  | [] => pyFloatUnsigned []
  | c :: rest =>
    if c = '+' then pyFloatUnsigned rest
    else if c = '-' then (pyFloatUnsigned rest).map Neg.neg
    else pyFloatUnsigned (c :: rest)

/-- Error taxonomy of the pipeline (spec section 7): `formatError` is
Python's `ValueError` from `float()` in `parse_latlon`, `malformedRecord`
is the `IndexError` from `parts[4]` / `parts[5]`, `dateError` is the
`ValueError` from `datetime.strptime`. -/
inductive ExtractErr where
  | formatError
  | malformedRecord
  | dateError
  deriving DecidableEq, Repr

/-- The upper-cased final character of a token (`token[-1].upper()`);
a space for the empty token, which never matters because `float("")`
fails first, exactly as in the Python tuple evaluation order. -/
def lastUpper (token : String) : Char :=
  (token.data.getLastD ' ').toUpper

/-- `parse_latlon` from `single_TC/extract_sst.py` (the copy in
`extract_HYCOM_sst.py` is textually identical):
`v, hemi = float(token[:-1]), token[-1].upper()`;
`return v if hemi in ("N", "E") else -v`. -/
def parse_latlon (token : String) : Except ExtractErr ℚ :=
  match pyFloat token.data.dropLast with
  | none => .error .formatError
  | some v =>
    if lastUpper token = 'N' ∨ lastUpper token = 'E' then .ok v else .ok (-v)

/-- The fix-line classifier used by the extractors, the counters and the
multi-file plotters: the regex `^\d{8},` (eight decimal digits followed
immediately by a comma). -/
def isFixLine (line : String) : Bool :=
  match line.data with
  | c0 :: c1 :: c2 :: c3 :: c4 :: c5 :: c6 :: c7 :: c8 :: _ =>
    c0.isDigit && c1.isDigit && c2.isDigit && c3.isDigit &&
    c4.isDigit && c5.isDigit && c6.isDigit && c7.isDigit && c8 = ','
  | _ => false

/-- Python `str.isdigit()` (ASCII digits; the Unicode digit classes do
not occur in the data). -/
def py_isdigit (cs : List Char) : Bool :=
  !cs.isEmpty && cs.all Char.isDigit

/-- The line classifier of `plot_single_track_sst.py` (`load_windows`):
`line[:8].isdigit()` — no comma requirement. -/
def plot_single_isfix (line : String) : Bool :=
  py_isdigit (line.data.take 8)

/-- Outcome of one remote raster query, the opaque external collaborator
of spec section 6: the date filter finds no image (`first()` is `None`),
the cell is masked/undefined (`getInfo` on a null value raises inside the
`try`), any other exception inside the `try`, or a raw numeric value. -/
inductive QueryOutcome where
  | noImage
  | masked
  | queryError
  | value (raw : ℚ)
  deriving DecidableEq, Repr

/-- A raster source: day number, longitude, latitude to query outcome. -/
def RasterSource : Type := Int → ℚ → ℚ → QueryOutcome

/-- `get_daily_sst` from `single_TC/extract_sst.py`: `None` image gives
NaN; the `try` block swallows masked cells and every query exception
into NaN; otherwise the raw value is multiplied by `0.01`. -/
def get_daily_sst (src : RasterSource) (date : Int) (lon lat : ℚ) : Option ℚ :=
  match src date lon lat with
  | .noImage => none
  | .masked => none
  | .queryError => none
  | .value raw => some (raw * (1 / 100))

/-- `get_daily_water_temp` from `single_TC/extract_HYCOM_sst.py`:
same shape, with `raw * 0.001 + 20`. -/
def get_daily_water_temp (src : RasterSource) (date : Int) (lon lat : ℚ) : Option ℚ :=
  match src date lon lat with
  | .noImage => none
  | .masked => none
  | .queryError => none
  | .value raw => some (raw * (1 / 1000) + 20)

/-- Modelled from the spec (section 4.3): the single generic window
sampler both pipelines are configurations of, `value = raw * multiplier
+ offset`, missing/masked/error to the missing marker. -/
def sampleLinear (mult offc : ℚ) (src : RasterSource) (date : Int) (lon lat : ℚ) :
    Option ℚ :=
  match src date lon lat with
  | .value raw => some (raw * mult + offc)
  | _ => none

/-- A daily sampler, the shape of `get_daily_sst` / `get_daily_water_temp`. -/
def Sampler : Type := RasterSource → Int → ℚ → ℚ → Option ℚ

/-- Gregorian leap-year rule. -/
def isLeap (y : ℕ) : Bool :=
  (y % 4 = 0 && y % 100 ≠ 0) || y % 400 = 0

/-- Length in days of month `m` of year `y`. -/
def daysInMonth (y m : ℕ) : ℕ :=
  if m = 1 ∨ m = 3 ∨ m = 5 ∨ m = 7 ∨ m = 8 ∨ m = 10 ∨ m = 12 then 31
  else if m = 4 ∨ m = 6 ∨ m = 9 ∨ m = 11 then 30
  else if isLeap y then 29 else 28

/-- Days in the months of year `y` strictly before month `m`. -/
def daysBeforeMonth (y m : ℕ) : ℕ :=
  ((List.range (m - 1)).map (fun i => daysInMonth y (i + 1))).sum

/-- Rata-die day number of the Gregorian date `y-m-d` (`1 ≤ y`). -/
def toRataDie (y m d : ℕ) : Int :=
  ((365 * (y - 1) + (y - 1) / 4 + (y - 1) / 400 + daysBeforeMonth y m + d
      - (y - 1) / 100 : ℕ) : Int)

/-- Model of `datetime.strptime(s, "%Y%m%d")`: succeeds exactly on
8-digit tokens that denote a valid Gregorian date with year 1–9999, and
yields its day number. -/
def strptimeYMD (s : String) : Option Int :=
  let cs := s.data
  if cs.length = 8 && cs.all Char.isDigit then
    let y := digitsToNat (cs.take 4)
    let m := digitsToNat ((cs.drop 4).take 2)
    let d := digitsToNat (cs.drop 6)
    if 1 ≤ y ∧ y ≤ 9999 ∧ 1 ≤ m ∧ m ≤ 12 ∧ 1 ≤ d ∧ d ≤ daysInMonth y m then
      some (toRataDie y m d)
    else none
  else none

/-- One parsed fix record, as built in the read loop of `main`:
`dict(raw=line.rstrip("\n"), ymd=parts[0], lat=parse_latlon(parts[4]),
lon=parse_latlon(parts[5]))`. -/
structure FixRow where
  raw : String
  ymd : String
  lat : ℚ
  lon : ℚ
  deriving DecidableEq, Repr

/-- Reading one fix line, in the evaluation order of the Python `dict`
literal: `parts[4]` (possible `IndexError`), `parse_latlon(parts[4])`,
`parts[5]`, `parse_latlon(parts[5])`. -/
def readFix (line : String) : Except ExtractErr FixRow :=
  match (pyFields line)[4]? with
  | none => .error .malformedRecord
  | some t4 =>
    match parse_latlon t4 with
    | .error e => .error e
    | .ok lat =>
      match (pyFields line)[5]? with
      | none => .error .malformedRecord
      | some t5 =>
        match parse_latlon t5 with
        | .error e => .error e
        | .ok lon => .ok ⟨line, (pyFields line).headD "", lat, lon⟩

/-- The read loop of `main`: classify each line with `^\d{8},`,
accumulate header lines and fix rows in order; the first failing fix
line aborts the file. -/
def readTrack : List String → Except ExtractErr (List String × List FixRow)
  | [] => .ok ([], [])
  | line :: rest =>
    if isFixLine line then
      match readFix line with
      | .error e => .error e
      | .ok r =>
        match readTrack rest with
        | .error e => .error e
        | .ok (hs, fs) => .ok (hs, r :: fs)
    else
      match readTrack rest with
      | .error e => .error e
      | .ok (hs, fs) => .ok (line :: hs, fs)

/-- The fixed offset window `range(-15, 16)`. -/
def window : List Int := (List.range 31).map (fun i => (i : Int) - 15)

/-- The per-fix sampling closure `sst_window` / `temp_window`:
`strptime` the date (its `ValueError` aborts the run), then one sample
per offset in window order. -/
def sampleFix (g : Sampler) (src : RasterSource) (r : FixRow) :
    Except ExtractErr (List (Option ℚ)) :=
  match strptimeYMD r.ymd with
  | none => .error .dateError
  | some base => .ok (window.map (fun off => g src (base + off) r.lon r.lat))

/-- `df.apply(sst_window, axis=1)`: sample every fix row in order; the
first date error aborts. -/
def sampleAll (g : Sampler) (src : RasterSource) :
    List FixRow → Except ExtractErr (List (FixRow × List (Option ℚ)))
  | [] => .ok []
  | r :: rs =>
    match sampleFix g src r with
    | .error e => .error e
    | .ok vs =>
      match sampleAll g src rs with
      | .error e => .error e
      | .ok rest => .ok ((r, vs) :: rest)

/-- Floor of a rational (`q.num.fdiv q.den`), kept executable. -/
def ratFloor (q : ℚ) : Int := q.num.fdiv (q.den : Int)

/-- Round to the nearest integer, ties to even, the rounding of Python's
fixed-point float formatting (idealised to exact decimal arithmetic;
binary-representation artefacts and the sign of negative zero are not
modelled). -/
def roundHalfEven (q : ℚ) : Int :=
  let n := ratFloor q
  if q - (n : ℚ) < 1 / 2 then n
  else if (1 : ℚ) / 2 < q - (n : ℚ) then n + 1
  else if n % 2 = 0 then n else n + 1

/-- Two-digit zero-padded rendering of `k < 100`. -/
def pad2 (k : ℕ) : String :=
  if k < 10 then "0" ++ toString k else toString k

/-- Fixed-point rendering with two digits after the point. -/
def decimal2 (q : ℚ) : String :=
  let n := roundHalfEven (q * 100)
  (if n < 0 then "-" else "") ++ toString (n.natAbs / 100) ++ "." ++ pad2 (n.natAbs % 100)

/-- Right-justify to width 6 with spaces. -/
def rightAlign6 (s : String) : String :=
  if s.length < 6 then String.mk (List.replicate (6 - s.length) ' ') ++ s else s

/-- The value formatter `f"{v:6.2f}"`; `float("nan")` renders as
`"   nan"`. -/
def formatVal : Option ℚ → String
  | none => "   nan"
  | some q => rightAlign6 (decimal2 q)

/-- One output fix line:
`f"{r.raw}, {', '.join(f'{v:6.2f}' for v in r[sst_cols])}"`. -/
def emitLine (p : FixRow × List (Option ℚ)) : String :=
  p.1.raw ++ ", " ++ String.intercalate ", " (p.2.map formatVal)

/-- The whole of `main` on the content level (paths, directory creation
and the closing `print` carry no data): read the track file, sample
every fix, and only then emit header lines followed by augmented fix
lines.  Parameterised by the daily sampler, the single point at which
the two `main`s differ. -/
def runExtractGen (g : Sampler) (src : RasterSource) (lines : List String) :
    Except ExtractErr (List String) :=
  match readTrack lines with
  | .error e => .error e
  | .ok (hs, fs) =>
    match sampleAll g src fs with
    | .error e => .error e
    | .ok rows => .ok (hs ++ rows.map emitLine)

/-- `main` of `single_TC/extract_sst.py`. -/
def runExtractSST : RasterSource → List String → Except ExtractErr (List String) :=
  runExtractGen get_daily_sst

/-- `main` of `single_TC/extract_HYCOM_sst.py`. -/
def runExtractHYCOM : RasterSource → List String → Except ExtractErr (List String) :=
  runExtractGen get_daily_water_temp

/-- The output file's line list, `none` when processing aborted (the
writer only runs after the whole file is read and sampled). -/
def outputFile (g : Sampler) (src : RasterSource) (lines : List String) :
    Option (List String) :=
  match runExtractGen g src lines with
  | .ok out => some out
  | .error _ => none

/-- `MISSING_STRINGS` of `find_mixed_missing_sst.py`. -/
def MISSING_STRINGS : List String := ["nan", "", "-999"]

/-- `is_missing` of `find_mixed_missing_sst.py`:
`tok.strip().lower() in MISSING_STRINGS`. -/
def is_missing (tok : String) : Bool :=
  MISSING_STRINGS.contains (String.mk ((pyStrip tok.data).map Char.toLower))

/-- The per-line test of `mixed_rows` in `find_mixed_missing_sst.py`:
date-prefix lines with at least 31 fields whose last 31 fields contain
some, but not only, missing tokens. -/
def mixedFlag (line : String) : Bool :=
  if isFixLine line then
    let parts := pyFields line
    if parts.length < 31 then false
    else
      let toks := parts.drop (parts.length - 31)
      toks.any is_missing && !toks.all is_missing
  else false

/-- The trailing 31 fields of a line (`parts[-31:]`), for stating the
scanner claim. -/
def last31 (line : String) : List String :=
  (pyFields line).drop ((pyFields line).length - 31)

/-- `Except` success as a `Bool`. -/
def okB {ε α : Type} : Except ε α → Bool
  | .ok _ => true
  | .error _ => false

/-- A strictly increasing chain of integers, as a Boolean check. -/
def strictChain : List Int → Bool
  | [] => true
  | [_] => true
  | a :: b :: t => (decide (a < b)) && strictChain (b :: t)

/-- A raster source answering every query with the raw value 500, the
mock of the spec's end-to-end test. -/
def src500 : RasterSource := fun _ _ _ => QueryOutcome.value 500

/-- A raster source for which every query fails to find an image. -/
def srcNoImage : RasterSource := fun _ _ _ => QueryOutcome.noImage

/-- The raw comma-separated columns of a line (`line.split(",")`,
without stripping). -/
def rawFields (line : String) : List String :=
  (splitComma line.data).map (fun cs => String.mk cs)

/-- A two-line track file used to exercise the pipeline concretely. -/
def c5file : List String :=
  ["C5 WITNESS HEADER", "19840902, AL, 13, HU, 13.4N, 82.7W"]

/-- The output of the OISST pipeline on `c5file` with the constant-500
source. -/
def c5out : List String :=
  match runExtractGen get_daily_sst src500 c5file with
  | .ok out => out
  | .error _ => []

/-- The concrete fix line of the spec's end-to-end test. -/
def c4line : String := "19840901,AL,13,HU,13.4N,82.7W,50,1002"

/-- The single output line of the OISST pipeline on `[c4line]` with the
constant-500 source. -/
def c4out : String :=
  match runExtractGen get_daily_sst src500 [c4line] with
  | .ok [o] => o
  | _ => ""

/-- A fix line whose 31 trailing fields mix one missing token with 30
numeric ones. -/
def c9mixed : String :=
  String.intercalate ", "
    (["19840901", "AL", "13", "HU", "13.4N", "82.7W"]
      ++ "   nan" :: List.replicate 30 "  5.00")

lemma strictChain_chain' : ∀ l : List Int, strictChain l = true →
    List.Chain' (fun a b : Int => a < b) l
  | [], _ => List.chain'_nil
  | [_], _ => List.chain'_singleton _
  | a :: b :: t, h => by
    rw [strictChain, Bool.and_eq_true, decide_eq_true_eq] at h
    exact (List.chain'_cons).2 ⟨h.1, strictChain_chain' (b :: t) h.2⟩

lemma pyFloatUnsigned_nonneg (cs : List Char) (v : ℚ)
    (h : pyFloatUnsigned cs = some v) : 0 ≤ v := by
  unfold pyFloatUnsigned at h
  split at h
  · split at h
    · injection h with h
      subst h
      positivity
    · injection h with h
      subst h
      positivity
    · exact absurd h (by simp)
  · exact absurd h (by simp)

lemma pyFloat_of_unsigned (cs : List Char) (v : ℚ)
    (h : pyFloatUnsigned cs = some v) : pyFloat cs = some v := by
  match cs with
  | [] => exact h
  | c :: rest =>
    have hplus : c ≠ '+' := by
      intro hc
      subst hc
      rw [pyFloatUnsigned] at h
      simp [List.all_cons] at h
    have hminus : c ≠ '-' := by
      intro hc
      subst hc
      rw [pyFloatUnsigned] at h
      simp [List.all_cons] at h
    show (if c = '+' then pyFloatUnsigned rest
      else if c = '-' then (pyFloatUnsigned rest).map Neg.neg
      else pyFloatUnsigned (c :: rest)) = some v
    rw [if_neg hplus, if_neg hminus]
    exact h

lemma parse_latlon_of_float (t : String) (v : ℚ)
    (h : pyFloat t.data.dropLast = some v) :
    parse_latlon t = .ok (if lastUpper t = 'N' ∨ lastUpper t = 'E' then v else -v) := by
  unfold parse_latlon
  rw [h]
  show (if lastUpper t = 'N' ∨ lastUpper t = 'E' then Except.ok v else Except.ok (-v))
    = Except.ok (if lastUpper t = 'N' ∨ lastUpper t = 'E' then v else -v)
  split_ifs <;> rfl

lemma parse_latlon_of_no_float (t : String)
    (h : pyFloat t.data.dropLast = none) :
    parse_latlon t = .error .formatError := by
  unfold parse_latlon
  rw [h]

/-- Claim C2 (counterexample): the trailing character of `"13.4X"` is
not a compass letter, yet `parse_latlon` returns a numeric result
(`-13.4`) instead of failing — the compass letter is never validated. -/
theorem c2_cex_noncompass_token_parses :
    parse_latlon "13.4X" = Except.ok (-(67 / 5))
    ∧ lastUpper "13.4X" = 'X'
    ∧ ¬(lastUpper "13.4X" = 'N' ∨ lastUpper "13.4X" = 'S'
        ∨ lastUpper "13.4X" = 'E' ∨ lastUpper "13.4X" = 'W') := by
  refine ⟨by with_unfolding_all rfl, by with_unfolding_all rfl, ?_⟩
  with_unfolding_all decide

/-- Claim C2 (amended): `parse_latlon` fails (and only then) when the
leading substring is not a valid decimal numeral; the trailing character
is never validated: any token whose leading substring parses to `v`
yields `+v` when that character upper-cases to `N` or `E` and `-v` for
every other trailing character, compass letter or not. -/
theorem c2_amended_fails_only_on_bad_numeral (t : String) :
    (pyFloat t.data.dropLast = none → parse_latlon t = .error .formatError)
    ∧ (∀ v : ℚ, pyFloat t.data.dropLast = some v →
        parse_latlon t =
          .ok (if lastUpper t = 'N' ∨ lastUpper t = 'E' then v else -v)) := by
  exact ⟨parse_latlon_of_no_float t, fun v h => parse_latlon_of_float t v h⟩

theorem c2_amended_witness :
    parse_latlon "13.4S" = .ok (-(67 / 5)) := by
  have h := (c2_amended_fails_only_on_bad_numeral "13.4S").2 (67 / 5)
      (by with_unfolding_all rfl)
  rw [h]
  with_unfolding_all rfl

/-- Claim C7: on a valid compass token (unsigned decimal numeral
followed by one of N/S/E/W, case-insensitively), `parse_latlon` returns
`+v` for N/E and `-v` for S/W, and the absolute value of the result is
the numeral's value `float(t[:-1])`. -/
theorem c7_compass_sign_and_abs (t : String) (v : ℚ)
    (hnum : pyFloatUnsigned t.data.dropLast = some v)
    (_hcompass : lastUpper t = 'N' ∨ lastUpper t = 'S'
      ∨ lastUpper t = 'E' ∨ lastUpper t = 'W') :
    ((lastUpper t = 'N' ∨ lastUpper t = 'E') → parse_latlon t = .ok v)
    ∧ ((lastUpper t = 'S' ∨ lastUpper t = 'W') → parse_latlon t = .ok (-v))
    ∧ (∀ r : ℚ, parse_latlon t = .ok r → |r| = v) := by
  have hv : 0 ≤ v := pyFloatUnsigned_nonneg _ _ hnum
  have hp : pyFloat t.data.dropLast = some v := pyFloat_of_unsigned _ _ hnum
  have heq := parse_latlon_of_float t v hp
  refine ⟨?_, ?_, ?_⟩
  · intro hne
    rw [heq, if_pos hne]
  · intro hsw
    have hno : ¬(lastUpper t = 'N' ∨ lastUpper t = 'E') := by
      rcases hsw with h | h <;> rw [h] <;> decide
    rw [heq, if_neg hno]
  · intro r hr
    rw [heq] at hr
    injection hr with hr
    rw [← hr]
    by_cases hc : lastUpper t = 'N' ∨ lastUpper t = 'E'
    · rw [if_pos hc]
      exact abs_of_nonneg hv
    · rw [if_neg hc, abs_neg]
      exact abs_of_nonneg hv

theorem c7_witness :
    parse_latlon "82.7W" = .ok (-(827 / 10)) ∧ |(-(827 / 10) : ℚ)| = 827 / 10 := by
  have h := c7_compass_sign_and_abs "82.7W" (827 / 10)
      (by with_unfolding_all rfl) (by with_unfolding_all decide)
  have h2 := h.2.1 (by with_unfolding_all decide)
  exact ⟨h2, h.2.2 _ h2⟩

/-- Claim C8: both daily samplers are configurations of the single
linear-rescale sampler — OISST with multiplier `0.01` and offset `0`,
HYCOM with multiplier `0.001` and offset `+20` — and the two extraction
pipelines are the same generic pipeline at those configurations; a
non-missing raw value is always recorded as `raw * multiplier + offset`. -/
theorem c8_pipelines_differ_only_in_constants :
    get_daily_sst = sampleLinear (1 / 100) 0
    ∧ get_daily_water_temp = sampleLinear (1 / 1000) 20
    ∧ runExtractSST = runExtractGen (sampleLinear (1 / 100) 0)
    ∧ runExtractHYCOM = runExtractGen (sampleLinear (1 / 1000) 20)
    ∧ (∀ (src : RasterSource) (d : Int) (lon lat raw : ℚ),
        src d lon lat = QueryOutcome.value raw →
          get_daily_sst src d lon lat = some (raw * (1 / 100) + 0)
          ∧ get_daily_water_temp src d lon lat = some (raw * (1 / 1000) + 20)) := by
  have hsst : get_daily_sst = sampleLinear (1 / 100) 0 := by
    funext src d lon lat
    unfold get_daily_sst sampleLinear
    cases src d lon lat <;> simp
  have hhycom : get_daily_water_temp = sampleLinear (1 / 1000) 20 := by
    funext src d lon lat
    unfold get_daily_water_temp sampleLinear
    cases src d lon lat <;> simp
  refine ⟨hsst, hhycom, ?_, ?_, ?_⟩
  · show runExtractGen get_daily_sst = _
    rw [hsst]
  · show runExtractGen get_daily_water_temp = _
    rw [hhycom]
  · intro src d lon lat raw h
    constructor
    · unfold get_daily_sst
      rw [h, add_zero]
    · unfold get_daily_water_temp
      rw [h]

theorem c8_witness :
    get_daily_sst src500 0 0 0 = some 5
    ∧ get_daily_water_temp src500 0 0 0 = some (41 / 2) := by
  have h := c8_pipelines_differ_only_in_constants.2.2.2.2 src500 0 0 0 500 rfl
  constructor
  · rw [h.1]
    norm_num
  · rw [h.2]
    norm_num

/-- Claim C10: the missing marker written by the record writer — NaN
under the fixed-width two-decimal format, i.e. the token `"   nan"` —
trims and lower-cases to exactly `"nan"`, and is therefore classified
as missing by the scanner's `is_missing`. -/
theorem c10_nan_roundtrip :
    formatVal none = "   nan"
    ∧ String.mk ((pyStrip (formatVal none).data).map Char.toLower) = "nan"
    ∧ is_missing (formatVal none) = true := by
  refine ⟨rfl, by with_unfolding_all rfl, by with_unfolding_all rfl⟩

lemma okB_bind_shape {ε α β : Type} (x : Except ε α) (f : α → β) :
    okB (match x with | .error e => Except.error e | .ok v => Except.ok (f v)) = okB x := by
  cases x <;> rfl

lemma readFix_ok_raw (l : String) (r : FixRow) (h : readFix l = .ok r) : r.raw = l := by
  unfold readFix at h
  split at h
  · exact Except.noConfusion h
  · split at h
    · exact Except.noConfusion h
    · split at h
      · exact Except.noConfusion h
      · split at h
        · exact Except.noConfusion h
        · injection h with h
          subst h
          rfl

lemma readFix_err_of_le4 (l : String) (h : (pyFields l).length ≤ 4) :
    readFix l = .error .malformedRecord := by
  unfold readFix
  rw [List.getElem?_eq_none h]

lemma readFix_not_ok_of_lt6 (l : String) (h : (pyFields l).length < 6) :
    okB (readFix l) = false := by
  unfold readFix
  have h5 : (pyFields l)[5]? = none := List.getElem?_eq_none (by omega)
  split
  · rfl
  · split
    · rfl
    · rw [h5]
      rfl

lemma readTrack_ok_spec (lines : List String) :
    ∀ (hs : List String) (fs : List FixRow), readTrack lines = .ok (hs, fs) →
      hs = lines.filter (fun l => !isFixLine l)
      ∧ fs.map FixRow.raw = lines.filter (fun l => isFixLine l) := by
  induction lines with
  | nil =>
    intro hs fs h
    injection h with h
    injection h with h1 h2
    subst h1; subst h2
    exact ⟨rfl, rfl⟩
  | cons l rest ih =>
    intro hs fs h
    rw [readTrack] at h
    by_cases hfix : isFixLine l
    · rw [if_pos hfix] at h
      cases hr : readFix l with
      | error e => rw [hr] at h; exact Except.noConfusion h
      | ok r =>
        rw [hr] at h
        cases ht : readTrack rest with
        | error e => rw [ht] at h; exact Except.noConfusion h
        | ok p =>
          obtain ⟨hs', fs'⟩ := p
          rw [ht] at h
          injection h with h
          injection h with h1 h2
          subst h1
          obtain ⟨ih1, ih2⟩ := ih hs' fs' ht
          constructor
          · rw [ih1, List.filter_cons]
            simp [hfix]
          · rw [← h2, List.map_cons, ih2, List.filter_cons]
            simp [hfix, readFix_ok_raw l r hr]
    · rw [if_neg hfix] at h
      cases ht : readTrack rest with
      | error e => rw [ht] at h; exact Except.noConfusion h
      | ok p =>
        obtain ⟨hs', fs'⟩ := p
        rw [ht] at h
        injection h with h
        injection h with h1 h2
        subst h2
        obtain ⟨ih1, ih2⟩ := ih hs' fs' ht
        constructor
        · rw [← h1, ih1, List.filter_cons]
          simp [hfix]
        · rw [ih2, List.filter_cons]
          simp [hfix]

lemma readTrack_append_err (xs ys : List String) (e : ExtractErr)
    (hxs : okB (readTrack xs) = true) (hys : readTrack ys = .error e) :
    readTrack (xs ++ ys) = .error e := by
  induction xs with
  | nil => simpa using hys
  | cons l rest ih =>
    rw [readTrack] at hxs
    rw [List.cons_append, readTrack]
    by_cases hfix : isFixLine l
    · rw [if_pos hfix] at hxs ⊢
      cases hr : readFix l with
      | error e' =>
        rw [hr] at hxs
        exact Bool.noConfusion hxs
      | ok r =>
        rw [hr] at hxs
        cases ht : readTrack rest with
        | error e' =>
          rw [ht] at hxs
          exact Bool.noConfusion hxs
        | ok p =>
          have hrw := ih (by rw [ht]; rfl)
          conv_lhs => rw [hrw]
    · rw [if_neg hfix] at hxs ⊢
      cases ht : readTrack rest with
      | error e' =>
        rw [ht] at hxs
        exact Bool.noConfusion hxs
      | ok p =>
        have hrw := ih (by rw [ht]; rfl)
        conv_lhs => rw [hrw]

lemma runExtractGen_err_of_read (g : Sampler) (src : RasterSource)
    (lines : List String) (e : ExtractErr) (h : readTrack lines = .error e) :
    runExtractGen g src lines = .error e := by
  unfold runExtractGen
  rw [h]

lemma sampleFix_ok_spec (g : Sampler) (src : RasterSource) (r : FixRow)
    (vs : List (Option ℚ)) (h : sampleFix g src r = .ok vs) :
    ∃ base : Int, strptimeYMD r.ymd = some base
      ∧ vs = window.map (fun off => g src (base + off) r.lon r.lat) := by
  unfold sampleFix at h
  cases hb : strptimeYMD r.ymd with
  | none => rw [hb] at h; exact Except.noConfusion h
  | some base =>
    rw [hb] at h
    injection h with h
    exact ⟨base, rfl, h.symm⟩

lemma window_length : window.length = 31 := rfl

lemma sampleAll_ok_spec (g : Sampler) (src : RasterSource) :
    ∀ (fs : List FixRow) (rows : List (FixRow × List (Option ℚ))),
      sampleAll g src fs = .ok rows →
      rows.map Prod.fst = fs
      ∧ ∀ p ∈ rows, ∃ base : Int, strptimeYMD p.1.ymd = some base
          ∧ p.2 = window.map (fun off => g src (base + off) p.1.lon p.1.lat) := by
  intro fs
  induction fs with
  | nil =>
    intro rows h
    injection h with h
    subst h
    exact ⟨rfl, by simp⟩
  | cons r rs ih =>
    intro rows h
    rw [sampleAll] at h
    cases hs : sampleFix g src r with
    | error e => rw [hs] at h; exact Except.noConfusion h
    | ok vs =>
      rw [hs] at h
      cases ht : sampleAll g src rs with
      | error e => rw [ht] at h; exact Except.noConfusion h
      | ok rest =>
        rw [ht] at h
        injection h with h
        subst h
        obtain ⟨ih1, ih2⟩ := ih rest ht
        refine ⟨by rw [List.map_cons, ih1], ?_⟩
        intro p hp
        rcases List.mem_cons.1 hp with hp | hp
        · subst hp
          exact sampleFix_ok_spec g src r vs hs
        · exact ih2 p hp

lemma sampleAll_okB (g g' : Sampler) (src src' : RasterSource) :
    ∀ fs : List FixRow, okB (sampleAll g src fs) = okB (sampleAll g' src' fs) := by
  intro fs
  induction fs with
  | nil => rfl
  | cons r rs ih =>
    rw [sampleAll, sampleAll]
    unfold sampleFix
    cases hb : strptimeYMD r.ymd with
    | none => rfl
    | some base =>
      show okB (match sampleAll g src rs with
          | .error e => Except.error e
          | .ok rest => Except.ok ((r, _) :: rest)) = okB (match sampleAll g' src' rs with
          | .error e => Except.error e
          | .ok rest => Except.ok ((r, _) :: rest))
      cases h1 : sampleAll g src rs with
      | error e1 =>
        cases h2 : sampleAll g' src' rs with
        | error e2 => rfl
        | ok rest2 =>
          rw [h1, h2] at ih
          exact Bool.noConfusion ih
      | ok rest1 =>
        cases h2 : sampleAll g' src' rs with
        | error e2 =>
          rw [h1, h2] at ih
          exact Bool.noConfusion ih
        | ok rest2 => rfl

lemma runExtractGen_okB (g g' : Sampler) (src src' : RasterSource)
    (lines : List String) :
    okB (runExtractGen g src lines) = okB (runExtractGen g' src' lines) := by
  unfold runExtractGen
  cases ht : readTrack lines with
  | error e => rfl
  | ok p =>
    obtain ⟨hs, fs⟩ := p
    show okB (match sampleAll g src fs with
        | .error e => Except.error e
        | .ok rows => Except.ok (hs ++ rows.map emitLine)) = okB (match sampleAll g' src' fs with
        | .error e => Except.error e
        | .ok rows => Except.ok (hs ++ rows.map emitLine))
    have h := sampleAll_okB g g' src src' fs
    cases h1 : sampleAll g src fs with
    | error e1 =>
      cases h2 : sampleAll g' src' fs with
      | error e2 => rfl
      | ok rows2 =>
        rw [h1, h2] at h
        exact Bool.noConfusion h
    | ok rows1 =>
      cases h2 : sampleAll g' src' fs with
      | error e2 =>
        rw [h1, h2] at h
        exact Bool.noConfusion h
      | ok rows2 => rfl

/-- Claim C1: when the raster query for an offset of the window finds no
image, a masked cell, or raises any error, that sample is the missing
marker (NaN) in both pipelines; the fix's 31-sample window is still
produced in full, and whether an extraction run succeeds never depends
on the raster source — no sampling failure aborts the run. -/
theorem c1_sampling_failures_never_fatal (src : RasterSource)
    (base off : Int) (lon lat : ℚ) (_hoff : off ∈ window)
    (hfail : ∀ raw : ℚ, src (base + off) lon lat ≠ QueryOutcome.value raw) :
    get_daily_sst src (base + off) lon lat = none
    ∧ get_daily_water_temp src (base + off) lon lat = none
    ∧ (∀ (g : Sampler) (r : FixRow) (vs : List (Option ℚ)),
        sampleFix g src r = .ok vs → vs.length = 31)
    ∧ (∀ i : ℕ, window[i]? = some off →
        (window.map fun o => get_daily_sst src (base + o) lon lat)[i]? = some none)
    ∧ (∀ (src₂ : RasterSource) (lines : List String),
        okB (runExtractGen get_daily_sst src lines)
          = okB (runExtractGen get_daily_sst src₂ lines)) := by
  have h1 : get_daily_sst src (base + off) lon lat = none := by
    unfold get_daily_sst
    cases hq : src (base + off) lon lat with
    | value raw => exact absurd hq (hfail raw)
    | noImage => rfl
    | masked => rfl
    | queryError => rfl
  have h2 : get_daily_water_temp src (base + off) lon lat = none := by
    unfold get_daily_water_temp
    cases hq : src (base + off) lon lat with
    | value raw => exact absurd hq (hfail raw)
    | noImage => rfl
    | masked => rfl
    | queryError => rfl
  refine ⟨h1, h2, ?_, ?_, ?_⟩
  · intro g r vs h
    obtain ⟨b, -, hvs⟩ := sampleFix_ok_spec g src r vs h
    rw [hvs, List.length_map, window_length]
  · intro i hi
    rw [List.getElem?_map, hi]
    simp [h1]
  · intro src₂ lines
    exact runExtractGen_okB get_daily_sst get_daily_sst src src₂ lines

theorem c1_witness :
    get_daily_sst srcNoImage 0 0 0 = none
    ∧ get_daily_water_temp srcNoImage 0 0 0 = none := by
  have h := c1_sampling_failures_never_fatal srcNoImage 0 0 0 0
      (by decide) (fun raw h => QueryOutcome.noConfusion h)
  exact ⟨by simpa using h.1, by simpa using h.2.1⟩

/-- Claim C3: a date-prefix line with too few comma-separated fields to
reach the latitude/longitude fields aborts processing of the whole file
— with the malformed-record error when even the latitude field is
missing — and no output is produced, since the writer only runs after
the entire file has been read and sampled. -/
theorem c3_short_fix_line_aborts_without_output (g : Sampler)
    (src : RasterSource) (pre post : List String) (l : String)
    (hpre : okB (readTrack pre) = true) (hfix : isFixLine l = true) :
    ((pyFields l).length < 6 →
      okB (runExtractGen g src (pre ++ l :: post)) = false
      ∧ outputFile g src (pre ++ l :: post) = none)
    ∧ ((pyFields l).length ≤ 4 →
      runExtractGen g src (pre ++ l :: post) = .error .malformedRecord) := by
  have habort : ∀ e : ExtractErr, readFix l = .error e →
      runExtractGen g src (pre ++ l :: post) = .error e := by
    intro e he
    have hl : readTrack (l :: post) = .error e := by
      rw [readTrack, if_pos hfix, he]
    exact runExtractGen_err_of_read g src _ e
      (readTrack_append_err pre (l :: post) e hpre hl)
  constructor
  · intro hlen
    have hnotok := readFix_not_ok_of_lt6 l hlen
    have he : ∃ e, readFix l = .error e := by
      cases hr : readFix l with
      | error e => exact ⟨e, rfl⟩
      | ok r => rw [hr] at hnotok; exact Bool.noConfusion hnotok
    obtain ⟨e, he⟩ := he
    have hrun := habort e he
    constructor
    · rw [hrun]; rfl
    · unfold outputFile
      rw [hrun]
  · intro hlen
    exact habort .malformedRecord (readFix_err_of_le4 l hlen)

theorem c3_witness :
    runExtractGen get_daily_sst src500 ["SST TEST HEADER", "19840901,AL,13"]
      = .error .malformedRecord
    ∧ outputFile get_daily_sst src500 ["SST TEST HEADER", "19840901,AL,13"] = none := by
  have h := c3_short_fix_line_aborts_without_output get_daily_sst src500
      ["SST TEST HEADER"] [] "19840901,AL,13" (by decide) (by decide)
  exact ⟨h.2 (by decide), (h.1 (by decide)).2⟩

lemma isFixLine_append (l s : String) (h : isFixLine l = true) :
    isFixLine (l ++ s) = true := by
  obtain ⟨cs⟩ := l
  obtain ⟨ds⟩ := s
  show isFixLine ⟨cs ++ ds⟩ = true
  rcases cs with _|⟨c0,_|⟨c1,_|⟨c2,_|⟨c3,_|⟨c4,_|⟨c5,_|⟨c6,_|⟨c7,_|⟨c8,t⟩⟩⟩⟩⟩⟩⟩⟩⟩ <;>
    first
      | exact Bool.noConfusion h
      | exact h

/-- Claim C5: when an extraction run succeeds, the output's header lines
are exactly the input's header lines in order, the output has as many
fix lines as the input, the offsets of the window are strictly
increasing, and every output fix line is the corresponding input fix
line followed by the 31 formatted window samples in window (offset)
order. -/
theorem c5_output_preserves_headers_and_fixes (g : Sampler)
    (src : RasterSource) (lines out : List String)
    (hrun : runExtractGen g src lines = .ok out) :
    out.filter (fun l => !isFixLine l) = lines.filter (fun l => !isFixLine l)
    ∧ (out.filter (fun l => isFixLine l)).length
        = (lines.filter (fun l => isFixLine l)).length
    ∧ List.Chain' (fun a b : Int => a < b) window
    ∧ (∀ (i : ℕ) (ol : String), (out.filter (fun l => isFixLine l))[i]? = some ol →
        ∃ (il : String) (base : Int) (lon lat : ℚ),
          (lines.filter (fun l => isFixLine l))[i]? = some il
          ∧ ol = il ++ ", " ++ String.intercalate ", "
              (window.map (fun off => formatVal (g src (base + off) lon lat)))) := by
  unfold runExtractGen at hrun
  cases ht : readTrack lines with
  | error e =>
    rw [ht] at hrun
    exact Except.noConfusion hrun
  | ok p =>
    obtain ⟨hs, fs⟩ := p
    rw [ht] at hrun
    have hrun' : (match sampleAll g src fs with
        | .error e => Except.error e
        | .ok rows => Except.ok (hs ++ rows.map emitLine)) = Except.ok out := hrun
    clear hrun
    cases hsamp : sampleAll g src fs with
    | error e =>
      rw [hsamp] at hrun'
      exact Except.noConfusion hrun'
    | ok rows =>
      rw [hsamp] at hrun'
      injection hrun' with hrun'
      subst hrun'
      obtain ⟨hhs, hfsraw⟩ := readTrack_ok_spec lines hs fs ht
      obtain ⟨hrowfst, hrowspec⟩ := sampleAll_ok_spec g src fs rows hsamp
      have hemitfix : ∀ p ∈ rows, isFixLine (emitLine p) = true := by
        intro p hp
        have hmem : p.1 ∈ fs := by
          rw [← hrowfst]
          exact List.mem_map_of_mem Prod.fst hp
        have hrawmem : p.1.raw ∈ fs.map FixRow.raw :=
          List.mem_map_of_mem FixRow.raw hmem
        rw [hfsraw] at hrawmem
        have hraw : isFixLine p.1.raw = true := (List.mem_filter.1 hrawmem).2
        exact isFixLine_append _ _ (isFixLine_append _ _ hraw)
      have hhsnotfix : ∀ h' ∈ hs, isFixLine h' = false := by
        intro h' hmem
        rw [hhs] at hmem
        simpa using (List.mem_filter.1 hmem).2
      have hfilterhdr : (hs ++ rows.map emitLine).filter (fun l => !isFixLine l) = hs := by
        rw [List.filter_append]
        have h1 : hs.filter (fun l => !isFixLine l) = hs :=
          List.filter_eq_self.mpr (by intro a ha; simpa using hhsnotfix a ha)
        have h2 : (rows.map emitLine).filter (fun l => !isFixLine l) = [] := by
          refine List.filter_eq_nil_iff.mpr ?_
          intro a ha
          obtain ⟨p, hp, rfl⟩ := List.mem_map.1 ha
          simp [hemitfix p hp]
        rw [h1, h2, List.append_nil]
      have hfilterfix : (hs ++ rows.map emitLine).filter (fun l => isFixLine l)
          = rows.map emitLine := by
        rw [List.filter_append]
        have h1 : hs.filter (fun l => isFixLine l) = [] := by
          refine List.filter_eq_nil_iff.mpr ?_
          intro a ha
          simp [hhsnotfix a ha]
        have h2 : (rows.map emitLine).filter (fun l => isFixLine l) = rows.map emitLine := by
          refine List.filter_eq_self.mpr ?_
          intro a ha
          obtain ⟨p, hp, rfl⟩ := List.mem_map.1 ha
          simp [hemitfix p hp]
        rw [h1, h2, List.nil_append]
      refine ⟨by rw [hfilterhdr, hhs], ?_, strictChain_chain' window rfl, ?_⟩
      · rw [hfilterfix, ← hfsraw, ← hrowfst]
        rw [List.length_map, List.length_map, List.length_map]
      · intro i ol hol
        rw [hfilterfix, List.getElem?_map] at hol
        cases hri : rows[i]? with
        | none => rw [hri] at hol; exact Option.noConfusion hol
        | some p =>
          rw [hri] at hol
          injection hol with hol
          obtain ⟨base, hbase, hvs⟩ := hrowspec p (List.getElem?_mem hri)
          refine ⟨p.1.raw, base, p.1.lon, p.1.lat, ?_, ?_⟩
          · rw [← hfsraw, List.getElem?_map, ← hrowfst, List.getElem?_map, hri]
            rfl
          · rw [← hol]
            show p.1.raw ++ ", " ++ String.intercalate ", " (p.2.map formatVal) = _
            rw [hvs, List.map_map]
            rfl

theorem c5_witness :
    c5out.filter (fun l => !isFixLine l) = c5file.filter (fun l => !isFixLine l)
    ∧ (c5out.filter (fun l => isFixLine l)).length
        = (c5file.filter (fun l => isFixLine l)).length := by
  have h := c5_output_preserves_headers_and_fixes get_daily_sst src500 c5file c5out
      (by with_unfolding_all rfl)
  exact ⟨h.1, h.2.1⟩

set_option maxRecDepth 100000 in
/-- Claim C4 (counterexample): with a constant raw value 500 and rescale
multiplier `0.01`, the 31 trailing comma-separated columns of the output
line are each `"   5.00"` (the value is rendered `"  5.00"` in width 6
and joined with `", "`), not `" 5.00"` as claimed. -/
theorem c4_cex_trailing_columns_not_5_00 :
    (rawFields c4out).drop 8 = List.replicate 31 "   5.00"
    ∧ (rawFields c4out).drop 8 ≠ List.replicate 31 " 5.00" := by
  constructor
  · with_unfolding_all rfl
  · with_unfolding_all decide

set_option maxRecDepth 100000 in
/-- Claim C4 (amended): for the fix line `c4line` and a source returning
the constant raw value 500, the OISST pipeline (multiplier `0.01`,
offset `0`) emits the unmodified original line text followed by `", "`
and the 31 window values, each formatted in width 6 as `"  5.00"` and
joined with `", "`; equivalently, the 31 trailing comma-separated
columns each equal `"   5.00"`. -/
theorem c4_amended_constant_source_output :
    runExtractGen get_daily_sst src500 [c4line]
      = .ok [c4line ++ ", " ++ String.intercalate ", " (List.replicate 31 "  5.00")]
    ∧ (rawFields c4out).take 8 = rawFields c4line
    ∧ (rawFields c4out).drop 8 = List.replicate 31 "   5.00" := by
  refine ⟨?_, ?_, ?_⟩ <;> with_unfolding_all rfl

/-- Claim C6 (counterexample): the line `"12345678 1,2"` — eight digits
not followed by a comma — is a header line for every `^\d{8},`-based
tool, but `plot_single_track_sst.py`'s `line[:8].isdigit()` test
classifies it as a fix candidate. -/
theorem c6_cex_classifiers_disagree :
    isFixLine "12345678 1,2" = false
    ∧ plot_single_isfix "12345678 1,2" = true := by
  exact ⟨by decide, by decide⟩

/-- Claim C6 (amended): the extractors, counters, scanner and multi-file
plotters classify a line as a fix iff its first 8 characters are decimal
digits immediately followed by a comma; `plot_single_track_sst.py`
instead uses the strictly weaker rule that the (nonempty) first 8
characters are all decimal digits, with no comma requirement. -/
theorem c6_amended_two_classifiers (l : String) :
    (isFixLine l = true ↔
      ((l.data.take 8).length = 8 ∧ (l.data.take 8).all Char.isDigit = true
        ∧ l.data[8]? = some ','))
    ∧ (plot_single_isfix l = true ↔
      (l.data.take 8 ≠ [] ∧ (l.data.take 8).all Char.isDigit = true))
    ∧ (isFixLine l = true → plot_single_isfix l = true) := by
  obtain ⟨cs⟩ := l
  rcases cs with _|⟨c0,_|⟨c1,_|⟨c2,_|⟨c3,_|⟨c4,_|⟨c5,_|⟨c6,_|⟨c7,_|⟨c8,t⟩⟩⟩⟩⟩⟩⟩⟩⟩ <;>
    simp [isFixLine, plot_single_isfix, py_isdigit, List.all_cons, and_assoc] <;>
    tauto

theorem c6_amended_witness : plot_single_isfix "19840901,AL" = true := by
  exact (c6_amended_two_classifiers "19840901,AL").2.2 (by decide)

/-- Claim C9: a date-prefix line carrying at least 31 comma-separated
fields is flagged by the scanner iff its trailing 31 fields contain at
least one missing token but not only missing tokens. -/
theorem c9_mixed_rows_iff (line : String) (hfix : isFixLine line = true)
    (hlen : 31 ≤ (pyFields line).length) :
    mixedFlag line = true ↔
      ((∃ t ∈ last31 line, is_missing t = true)
        ∧ ¬ ∀ t ∈ last31 line, is_missing t = true) := by
  unfold mixedFlag last31
  rw [if_pos hfix, if_neg (by omega : ¬ (pyFields line).length < 31)]
  simp [List.any_eq_true, List.all_eq_true]

theorem c9_witness : mixedFlag c9mixed = true := by
  exact (c9_mixed_rows_iff c9mixed (by decide) (by decide)).mpr (by decide)
